import Mathlib

/-!
Verification of the pino-toolkit logging configuration layer.

The TypeScript source (src/index.ts of the repository) is shallowly embedded
below.  Pure data flow is translated to Lean functions; the module-level
singleton variable is translated to explicit state passing over a
RegistryState; file-system paths are modelled as segment lists, with the
pathe functions join and dirname acting as append and dropLast on
normalized paths.  Environment-dependent defaults (process.env.NODE_ENV,
process.cwd()) are threaded through an explicit Env parameter.
-/

namespace PinoToolkit

/-- A file-system path, modelled as its list of segments.  The pathe
function join appends a segment, dirname drops the last one.  The empty
list plays the role of the empty string, which is falsy in the
truthiness tests the source performs on destination values. -/
abbrev Path := List String

/-- The pathe join of a directory and one further segment. -/
def pathJoin (dir : Path) (segment : String) : Path := dir ++ [segment]

/-- The pathe dirname of a path: all segments but the last. -/
def dirname (p : Path) : Path := p.dropLast

/-- Runtime environment facts the source reads at module load:
process.env.NODE_ENV (only its comparison with the string production is
used, line 207) and process.cwd() (line 208). -/
structure Env where
  isProduction : Bool
  cwd : Path

/-- The six pino severity names, src lines 117. -/
inductive LogLevel where
  | fatal | error | warn | info | debug | trace
deriving DecidableEq, Repr

/-- The pino numeric value of each level (pino.levels.values, used by the
exact filter installed at src line 308). -/
def levelValue : LogLevel → Nat
  | .fatal => 60
  | .error => 50
  | .warn => 40
  | .info => 30
  | .debug => 20
  | .trace => 10

/-- The string name of each level, as used for the per-level file name
interpolation at src line 339. -/
def levelName : LogLevel → String
  | .fatal => "fatal"
  | .error => "error"
  | .warn => "warn"
  | .info => "info"
  | .debug => "debug"
  | .trace => "trace"

/-- The fixed key order of the defaultConfig.levelFiles object literal,
src lines 214-221: fatal, error, warn, info, debug, trace. -/
def allLevels : List LogLevel :=
  [.fatal, .error, .warn, .info, .debug, .trace]

/-- A JavaScript record of log fields, modelled as an ordered association
list (key insertion order is observable through object spread). -/
abbrev Record := List (String × String)

/-- First-match lookup of a key in a record. -/
def lookupKey (r : Record) (k : String) : Option String :=
  match r with
  | [] => none
  | (k₁, v) :: t => if k₁ == k then some v else lookupKey t k

/-- Left-biased choice on options: the JavaScript pattern of reading a
first source and falling back to a second. -/
def pick (x y : Option α) : Option α :=
  match x with
  | some v => some v
  | none => y

/-- The JavaScript object spread of two records, as in the source
expressions at lines 366 and 412: keys of the first operand keep their
positions with the second operand's value winning on collision, then keys
only in the second operand follow in its order. -/
def spreadMerge (a b : Record) : Record :=
  a.map (fun kv => match lookupKey b kv.1 with
    | some v => (kv.1, v)
    | none => kv)
  ++ b.filter (fun kv => (lookupKey a kv.1).isNone)

/-- RotationConfig, src lines 134-138. -/
structure RotationConfig where
  interval : String
  size : String
  maxFiles : Int
deriving DecidableEq, Repr

/-- The user-supplied rotation input LoggerConfig.rotation of TypeScript
type Partial RotationConfig, src line 174: every sub-key optional. -/
structure RotationInput where
  interval : Option String
  size : Option String
  maxFiles : Option Int
deriving DecidableEq, Repr

/-- LevelFileConfig, src lines 145-148. -/
structure LevelFileConfig where
  enabled : Bool
  destination : Option Path
deriving DecidableEq, Repr

/-- RedactionConfig, src lines 155-158. -/
structure RedactionConfig where
  paths : List String
  censor : Option String
deriving DecidableEq, Repr

/-- A custom serializer for one key, src line 186. -/
abbrev SerializerFn := String → String

/-- LoggerConfig, src lines 163-187: every field optional.  The levelFiles
map is modelled as an ordered association list to make the user's key
order observable, as it is through Object.entries in the source. -/
structure LoggerConfig where
  level : Option LogLevel
  prettyPrint : Option Bool
  destination : Option Path
  rotation : Option RotationInput
  levelFiles : Option (List (LogLevel × LevelFileConfig))
  redaction : Option RedactionConfig
  baseContext : Option Record
  serializers : Option (List (String × SerializerFn))

/-- The empty object literal, the default parameter of initLogger at src
line 360. -/
def emptyConfig : LoggerConfig :=
  ⟨none, none, none, none, none, none, none, none⟩

/-- DefaultConfig, src lines 189-199: the fully-populated configuration
shape produced by merging with the defaults. -/
structure DefaultConfig where
  level : LogLevel
  prettyPrint : Bool
  destination : Path
  rotation : RotationConfig
  levelFiles : List (LogLevel × LevelFileConfig)
  redaction : Option RedactionConfig
  baseContext : Option Record
  serializers : Option (List (String × SerializerFn))

/-- defaultConfig, src lines 205-222.  The levelFiles literal lists all six
levels in the order fatal, error, warn, info, debug, trace. -/
def defaultConfig (env : Env) : DefaultConfig where
  level := .info
  prettyPrint := !env.isProduction
  destination := pathJoin (pathJoin env.cwd "logs") "app.log"
  rotation := ⟨"1d", "10M", 5⟩
  levelFiles :=
    [ (.fatal, ⟨true, none⟩)
    , (.error, ⟨true, none⟩)
    , (.warn, ⟨false, none⟩)
    , (.info, ⟨false, none⟩)
    , (.debug, ⟨false, none⟩)
    , (.trace, ⟨false, none⟩) ]
  redaction := none
  baseContext := none
  serializers := none

/-- First-match lookup of a level in a user levelFiles association list. -/
def lookupLevelFile (lfs : Option (List (LogLevel × LevelFileConfig)))
    (l : LogLevel) : Option LevelFileConfig :=
  match lfs with
  | none => none
  | some xs => (xs.find? (fun p => p.1 == l)).map (·.2)

/-- The rotation spread at src lines 257, 293 and 365: defaults overridden
per sub-key by whichever sub-keys the input supplies. -/
def mergeRotation (r : Option RotationInput) : RotationConfig :=
  match r with
  | none => ⟨"1d", "10M", 5⟩
  | some pr => ⟨pr.interval.getD "1d", pr.size.getD "10M", pr.maxFiles.getD 5⟩

/-- The configuration merge performed inside initLogger, src lines 362-367:
top-level keys overridden by the input when present, with rotation and
levelFiles merged per sub-key.  Because the defaults object lists all six
levels, the spread over levelFiles yields exactly the defaults' key order
with the user's values substituted where the user supplied an entry. -/
def mergeConfig (env : Env) (cfg : LoggerConfig) : DefaultConfig where
  level := cfg.level.getD (defaultConfig env).level
  prettyPrint := cfg.prettyPrint.getD (defaultConfig env).prettyPrint
  destination := cfg.destination.getD (defaultConfig env).destination
  rotation := mergeRotation cfg.rotation
  levelFiles :=
    (defaultConfig env).levelFiles.map
      (fun p => (p.1, (lookupLevelFile cfg.levelFiles p.1).getD p.2))
  redaction := cfg.redaction
  baseContext := cfg.baseContext
  serializers := cfg.serializers

/-- Where a sink writes: the pretty console transport or a rotating file. -/
inductive SinkTarget where
  | pretty
  | file (path : Path)
deriving DecidableEq, Repr

/-- A resolved sink descriptor: the PinoDestination interface of src lines
122-126, with the transport options that matter to routing and rotation.
The filter field holds the exact level the stream's filter function
compares against (src line 308), or none for a plain threshold stream. -/
structure Sink where
  level : LogLevel
  target : SinkTarget
  rotation : Option RotationConfig
  filter : Option LogLevel
deriving DecidableEq, Repr

/-- createPrettyStream, src lines 229-242. -/
def createPrettyStream (level : LogLevel) : Sink :=
  ⟨level, .pretty, none, none⟩

/-- createRotationStream, src lines 250-279: destination falls back to the
default via a nullish check, rotation is the per-sub-key merge of defaults
with the input's rotation. -/
def createRotationStream (env : Env) (config : LoggerConfig)
    (level : LogLevel) : Sink :=
  let destination := config.destination.getD (defaultConfig env).destination
  ⟨level, .file destination, some (mergeRotation config.rotation), none⟩

/-- createLevelStream, src lines 288-310: a rotating file stream carrying
an exact-level filter comparing pino numeric level values. -/
def createLevelStream (level : LogLevel) (destination : Path)
    (rotation : Option RotationInput) : Sink :=
  ⟨level, .file destination, some (mergeRotation rotation), some level⟩

/-- Truthiness of an optional destination string: absent and the empty
string are falsy, src line 327. -/
def truthyDest : Option Path → Bool
  | none => false
  | some p => !p.isEmpty

/-- createStreams, src lines 317-349: pretty sink when prettyPrint is
truthy, then the primary rotating sink when destination is truthy, then
one sink per enabled levelFiles entry in the entries' order, each entry's
destination defaulting to the level name dot log inside the directory of
the primary destination (nullish fallback to the default destination). -/
def createStreams (env : Env) (config : LoggerConfig) : List Sink :=
  let level := config.level.getD (defaultConfig env).level
  let s1 : List Sink :=
    if config.prettyPrint.getD false then [createPrettyStream level] else []
  let s2 : List Sink :=
    if truthyDest config.destination then [createRotationStream env config level]
    else []
  let s3 : List Sink :=
    match config.levelFiles with
    | none => []
    | some lfs =>
      (lfs.filter (fun p => p.2.enabled)).map (fun p =>
        let baseDir :=
          dirname (config.destination.getD (defaultConfig env).destination)
        let destination :=
          p.2.destination.getD (pathJoin baseDir (levelName p.1 ++ ".log"))
        createLevelStream p.1 destination config.rotation)
  s1 ++ s2 ++ s3

/-- The view of a fully-merged configuration as a LoggerConfig, which is
how initLogger at src line 392 passes its merged configuration to
createStreams: every field present. -/
def toLoggerConfig (m : DefaultConfig) : LoggerConfig where
  level := some m.level
  prettyPrint := some m.prettyPrint
  destination := some m.destination
  rotation := some ⟨some m.rotation.interval, some m.rotation.size,
    some m.rotation.maxFiles⟩
  levelFiles := some m.levelFiles
  redaction := m.redaction
  baseContext := m.baseContext
  serializers := m.serializers

/-- A constructed logger: the resolved configuration, the resolved sink
list, the mutable current level (initialised from the merged level, src
line 371) and the bound context of a child logger (empty for a root
logger).  The id field is a ghost allocation identifier modelling
JavaScript object identity; it is supplied by the allocation counter of
the registry state. -/
structure Logger where
  id : Nat
  config : DefaultConfig
  sinks : List Sink
  currentLevel : LogLevel
  boundContext : Record

/-- initLogger, src lines 360-393: merge the configuration with the
defaults and resolve the sink list from the merged configuration. -/
def initLogger (env : Env) (id : Nat) (config : LoggerConfig) : Logger :=
  let merged := mergeConfig env config
  ⟨id, merged, createStreams env (toLoggerConfig merged), merged.level, []⟩

/-- A configuration-construction error.  The claim under examination
speaks of an InvalidConfiguration failure; the source's construction path
contains no throw statement, so the Except channel is present only to
make that (absent) failure mode expressible. -/
abbrev ConfigError := String

/-- Logger construction with an explicit failure channel.  The body of the
TypeScript initLogger (src lines 360-393) performs no validation and
contains no throw; construction therefore always succeeds. -/
def initLoggerE (env : Env) (id : Nat) (config : LoggerConfig) :
    Except ConfigError Logger :=
  .ok (initLogger env id config)

/-- Whether an Except-valued construction succeeded. -/
def isOkE (e : Except ConfigError Logger) : Bool :=
  match e with
  | .ok _ => true
  | .error _ => false

/-- Modelled from the spec: the per-sink admission test of the dispatch
performed by pino.multistream, which lives in the pino dependency and is
not part of this repository's sources.  Spec section 4.4: a threshold sink
admits an event at-least-as-severe as the Router's current level; an
exact-filter sink admits only events whose pino numeric level value equals
its own fixed level's value (the filter installed at src line 308). -/
def sinkMatches (current : LogLevel) (s : Sink) (e : LogLevel) : Bool :=
  match s.filter with
  | some fl => levelValue e == levelValue fl
  | none => levelValue current ≤ levelValue e

/-- Modelled from the spec: dispatch of one event, performed by
pino.multistream inside the pino dependency and absent from this
repository's sources.  Spec section 4.4: sinks are evaluated in the
resolved order and the event is handed to every sink whose filter matches;
the result here is the list of sinks the event reaches, in that order. -/
def route (l : Logger) (e : LogLevel) : List Sink :=
  l.sinks.filter (fun s => sinkMatches l.currentLevel s e)

/-- The in-place level mutation performed on the pino instance by the
ambient setLevel, src line 485. -/
def Logger.withLevel (l : Logger) (n : LogLevel) : Logger :=
  { l with currentLevel := n }

/-- pino's child, consumed at src line 496: a derived logger sharing the
parent's sinks, with the new bindings layered over the parent's bound
context (the child's own bindings win on collision). -/
def Logger.mkChild (l : Logger) (bindings : Record) : Logger :=
  { l with boundContext := spreadMerge l.boundContext bindings }

/-- The module-level singleton slot (src line 352) together with a ghost
allocation counter that models JavaScript object identity: every
construction consumes a fresh identifier, so two distinct constructions
never compare equal on id. -/
structure RegistryState where
  inst : Option Logger
  nextId : Nat

/-- The process-start registry: no singleton yet. -/
def initialRegistry : RegistryState := ⟨none, 0⟩

/-- getLogger, src lines 423-428: return the stored singleton when one
exists (the configuration argument is then ignored), otherwise construct
one with initLogger — whose default parameter supplies the empty object
when no configuration was given — store it and return it. -/
def getLogger (env : Env) (config : Option LoggerConfig)
    (s : RegistryState) : Logger × RegistryState :=
  match s.inst with
  | some l => (l, s)
  | none =>
    let l := initLogger env s.nextId (config.getD emptyConfig)
    (l, ⟨some l, s.nextId + 1⟩)

/-- resetLogger, src lines 503-505: clear the singleton slot. -/
def resetLogger (s : RegistryState) : RegistryState :=
  ⟨none, s.nextId⟩

/-- createLogger, src lines 514-516: construct a fresh instance directly
via initLogger, without reading or writing the singleton slot.  Only the
ghost allocation counter advances. -/
def createLogger (env : Env) (config : LoggerConfig)
    (s : RegistryState) : Logger × RegistryState :=
  (initLogger env s.nextId config, ⟨s.inst, s.nextId + 1⟩)

/-- setLevel, src lines 484-486: fetch the singleton (constructing it with
no configuration argument when absent) and mutate its level in place. -/
def setLevel (env : Env) (level : LogLevel)
    (s : RegistryState) : Unit × RegistryState :=
  let r := getLogger env none s
  ((), ⟨some (r.1.withLevel level), r.2.nextId⟩)

/-- child, src lines 495-497: fetch the singleton (constructing it with no
configuration argument when absent) and derive a child from it. -/
def child (env : Env) (bindings : Record)
    (s : RegistryState) : Logger × RegistryState :=
  let r := getLogger env none s
  (r.1.mkChild bindings, r.2)

/-- A log message, src line 118: a string or a record (spec section 9
models the duck-typed shape as this tagged variant). -/
inductive LogMessage where
  | text (s : String)
  | fields (r : Record)

/-- The structured payload handed to the pino level method: the field
record together with the optional message string. -/
structure Payload where
  fields : Record
  msg : Option String
deriving DecidableEq, Repr

/-- The payload computation shared verbatim by the bodies of log (src
lines 529-534) and of the function returned by createLogFunction (src
lines 406-413): a string message is emitted as the context record (or the
empty object) with the message attached; a record message is the spread
of the message record with the context record, the context spread last. -/
def logPayload (message : LogMessage) (context : Option Record) : Payload :=
  match message with
  | .text s => ⟨context.getD [], some s⟩
  | .fields r => ⟨spreadMerge r (context.getD []), none⟩

/-- log, src lines 526-535: fetch the singleton (no configuration
argument) and emit at the given level; the value is the list of sinks the
event reaches paired with the emitted payload. -/
def log (env : Env) (level : LogLevel) (message : LogMessage)
    (context : Option Record) (s : RegistryState) :
    (List Sink × Payload) × RegistryState :=
  let r := getLogger env none s
  ((route r.1 level, logPayload message context), r.2)

/-- createLogFunction, src lines 402-415: the level-specific function,
identical in body to log with the level fixed. -/
def createLogFunction (env : Env) (level : LogLevel) (message : LogMessage)
    (context : Option Record) (s : RegistryState) :
    (List Sink × Payload) × RegistryState :=
  let r := getLogger env none s
  ((route r.1 level, logPayload message context), r.2)

/-- fatal, src line 436. -/
def fatal (env : Env) := createLogFunction env .fatal

/-- error, src line 444. -/
def error (env : Env) := createLogFunction env .error

/-- warn, src line 452. -/
def warn (env : Env) := createLogFunction env .warn

/-- info, src line 460. -/
def info (env : Env) := createLogFunction env .info

/-- debug, src line 468. -/
def debug (env : Env) := createLogFunction env .debug

/-- trace, src line 476. -/
def trace (env : Env) := createLogFunction env .trace

/-- The default levelFiles entry of a level, src lines 214-221. -/
def defaultLevelFile : LogLevel → LevelFileConfig
  | .fatal => ⟨true, none⟩
  | .error => ⟨true, none⟩
  | _ => ⟨false, none⟩

/-- The levelFiles entry a level receives after the merge with the
defaults. -/
def mergedLevelFile (cfg : LoggerConfig) (l : LogLevel) : LevelFileConfig :=
  (lookupLevelFile cfg.levelFiles l).getD (defaultLevelFile l)

section Lemmas

lemma levelValue_inj (a b : LogLevel) : levelValue a = levelValue b ↔ a = b := by
  cases a <;> cases b <;> simp [levelValue]

lemma filter_comm_map (f : α → β) (p : β → Bool) (l : List α) :
    (l.map f).filter p = (l.filter (fun a => p (f a))).map f := by
  induction l with
  | nil => rfl
  | cons a t ih =>
    by_cases h : p (f a) <;> simp [List.filter_cons, h, ih]

lemma mergeConfig_levelFiles (env : Env) (cfg : LoggerConfig) :
    (mergeConfig env cfg).levelFiles =
      allLevels.map (fun l => (l, mergedLevelFile cfg l)) := by
  simp [mergeConfig, defaultConfig, allLevels, mergedLevelFile, defaultLevelFile]

/-- The shape of the sink list a merged configuration resolves to: the
pretty sink when enabled, then the primary sink when the destination is
truthy, then the per-level sinks for the enabled levels in the fixed
fatal-to-trace order. -/
lemma initLogger_sinks (env : Env) (id : Nat) (cfg : LoggerConfig) :
    (initLogger env id cfg).sinks =
      (if (mergeConfig env cfg).prettyPrint
        then [createPrettyStream (mergeConfig env cfg).level] else [])
      ++ (if (mergeConfig env cfg).destination.isEmpty then []
        else [Sink.mk (mergeConfig env cfg).level
          (.file (mergeConfig env cfg).destination)
          (some (mergeConfig env cfg).rotation) none])
      ++ (allLevels.filter (fun l => (mergedLevelFile cfg l).enabled)).map
        (fun l => Sink.mk l
          (.file ((mergedLevelFile cfg l).destination.getD
            (pathJoin (dirname (mergeConfig env cfg).destination)
              (levelName l ++ ".log"))))
          (some (mergeConfig env cfg).rotation) (some l)) := by
  show createStreams env (toLoggerConfig (mergeConfig env cfg)) = _
  rw [createStreams]
  congr 1
  · congr 1
    by_cases h : (mergeConfig env cfg).destination.isEmpty
    · simp [toLoggerConfig, truthyDest, List.isEmpty_iff, h]
    · simp [toLoggerConfig, truthyDest, List.isEmpty_iff, h]
      rfl
  · simp only [mergeConfig_levelFiles, toLoggerConfig]
    rw [filter_comm_map]
    rw [List.map_map]
    rfl

lemma lookupKey_append (a b : Record) (k : String) :
    lookupKey (a ++ b) k = pick (lookupKey a k) (lookupKey b k) := by
  induction a with
  | nil => simp [lookupKey, pick]
  | cons kv t ih =>
    obtain ⟨k₁, v₁⟩ := kv
    by_cases h : k₁ == k
    · simp [lookupKey, h, pick]
    · simp [lookupKey, h, ih]

lemma lookupKey_override (a b : Record) (k : String) :
    lookupKey (a.map (fun kv => match lookupKey b kv.1 with
      | some v => (kv.1, v)
      | none => kv)) k
    = (lookupKey a k).map (fun v => (lookupKey b k).getD v) := by
  induction a with
  | nil => simp [lookupKey]
  | cons kv t ih =>
    obtain ⟨k₁, v₁⟩ := kv
    by_cases h : k₁ == k
    · have hk : k₁ = k := eq_of_beq h
      subst hk
      cases hb : lookupKey b k₁ <;> simp [lookupKey, hb, h]
    · cases hb : lookupKey b k₁ <;> simp [lookupKey, hb, h, ih]

lemma lookupKey_dropOverridden (a b : Record) (k : String) :
    lookupKey (b.filter (fun kv => (lookupKey a kv.1).isNone)) k
    = if (lookupKey a k).isNone then lookupKey b k else none := by
  induction b with
  | nil => simp [lookupKey]
  | cons kv t ih =>
    obtain ⟨k₁, v₁⟩ := kv
    by_cases hp : (lookupKey a k₁).isNone
    · by_cases h : k₁ == k
      · have hk : k₁ = k := eq_of_beq h
        subst hk
        simp [List.filter_cons, hp, lookupKey, h]
      · simp [List.filter_cons, hp, lookupKey, h, ih]
    · by_cases h : k₁ == k
      · have hk : k₁ = k := eq_of_beq h
        subst hk
        simp only [List.filter_cons]
        rw [if_neg (by simpa using hp)]
        rw [ih]
        simp only [lookupKey]
        simp [hp]
      · simp only [List.filter_cons]
        rw [if_neg (by simpa using hp)]
        rw [ih]
        simp [lookupKey, h]

/-- Lookup in a JavaScript spread of two records: the second operand's
binding wins, with the first operand's binding as fallback. -/
lemma lookupKey_spreadMerge (a b : Record) (k : String) :
    lookupKey (spreadMerge a b) k = pick (lookupKey b k) (lookupKey a k) := by
  rw [spreadMerge, lookupKey_append, lookupKey_override, lookupKey_dropOverridden]
  cases ha : lookupKey a k <;> cases hb : lookupKey b k <;>
    simp [pick, Option.isNone]

end Lemmas

def exEnv : Env := ⟨true, ["r"]⟩

def exConfig : LoggerConfig :=
  ⟨none, some false, some ["r", "app.log"], none,
   some [(.error, ⟨true, none⟩)], none, none, none⟩

/-- A configuration violating the constraints the claim about
InvalidConfiguration lists: a non-positive rotation maxFiles and an empty
redaction path list.  A malformed level name is not representable in the
typed embedding, where a level is already one of the six constructors. -/
def badConfig : LoggerConfig :=
  ⟨none, none, none, some ⟨none, none, some 0⟩, none,
   some ⟨[], none⟩, none, none⟩

/-- The constraint predicate of the claim about InvalidConfiguration, over
the violations representable in the typed embedding: a rotation maxFiles
that is present and not a positive integer, or a redaction paths list that
is present and empty. -/
def violatesConstraints (cfg : LoggerConfig) : Bool :=
  (match cfg.rotation with
    | some r => match r.maxFiles with
      | some n => decide (n ≤ 0)
      | none => false
    | none => false)
  || (match cfg.redaction with
    | some rd => rd.paths.isEmpty
    | none => false)

/-- A configuration producing an empty sink list: prettyPrint disabled,
the primary destination set to the falsy empty string, and the two
default-enabled per-level files explicitly disabled. -/
def emptySinkConfig : LoggerConfig :=
  ⟨none, some false, some [], none,
   some [(.fatal, ⟨false, none⟩), (.error, ⟨false, none⟩)], none, none, none⟩

/-- A configuration supplying only the rotation size sub-key. -/
def rotOnlyConfig : LoggerConfig :=
  ⟨none, some false, some ["r", "app.log"], some ⟨none, some "50M", none⟩,
   none, none, none, none⟩

/-- A configuration enabling a warn per-level file and nothing else. -/
def warnOnlyConfig : LoggerConfig :=
  ⟨none, some false, none, none,
   some [(.warn, ⟨true, none⟩)], none, none, none⟩

/-- C1 counterexample: a configuration with a non-positive rotation
maxFiles and an empty redaction path list is accepted — logger
construction succeeds with no error, and the non-positive maxFiles is
handed on through the merge, contradicting the claim that construction
fails synchronously with an InvalidConfiguration error. -/
theorem c1_invalid_config_accepted :
    violatesConstraints badConfig = true
    ∧ isOkE (initLoggerE ⟨true, []⟩ 0 badConfig) = true
    ∧ (mergeConfig ⟨true, []⟩ badConfig).rotation.maxFiles = 0 := by
  exact ⟨rfl, rfl, rfl⟩

/-- C1 amended: logger construction performs no validation at all — for
every input configuration, violating or not, the merge raises no error and
construction proceeds, with an out-of-range maxFiles passed through to the
resolved rotation policy unchanged. -/
theorem c1_construction_never_fails (env : Env) (id : Nat)
    (cfg : LoggerConfig) :
    isOkE (initLoggerE env id cfg) = true
    ∧ (mergeConfig env cfg).rotation.maxFiles
      = ((cfg.rotation.map (fun r => r.maxFiles.getD 5)).getD 5) := by
  refine ⟨rfl, ?_⟩
  cases h : cfg.rotation <;> simp [mergeConfig, mergeRotation, h]

/-- C2: in a logger built from any configuration, an event at level E
reaches an exact-filter per-level sink for level L exactly when E equals
L, and reaches a threshold sink (pretty or primary) exactly when E is
at-least-as-severe as the merged minimum level. -/
theorem c2_exact_and_threshold_routing (env : Env) (cfg : LoggerConfig)
    (E L : LogLevel) (s : Sink)
    (hs : s ∈ (initLogger env 0 cfg).sinks) :
    (s.filter = some L →
      ((s ∈ route (initLogger env 0 cfg) E) ↔ E = L))
    ∧ (s.filter = none →
      ((s ∈ route (initLogger env 0 cfg) E) ↔
        levelValue (mergeConfig env cfg).level ≤ levelValue E)) := by
  constructor
  · intro hf
    rw [route, List.mem_filter]
    simp [hs, sinkMatches, hf, levelValue_inj]
  · intro hf
    rw [route, List.mem_filter]
    rw [show (initLogger env 0 cfg).currentLevel
      = (mergeConfig env cfg).level from rfl]
    simp [hs, sinkMatches, hf]

/-- C2 witness: with a primary destination set and the error per-level
file enabled, an error event reaches both the primary sink and the
error-level sink, while a warn event reaches the primary sink but not the
error-level sink. -/
theorem c2_routing_witness :
    (Sink.mk .error (.file ["r", "error.log"]) (some ⟨"1d", "10M", 5⟩)
        (some .error) ∈ route (initLogger exEnv 0 exConfig) .error)
    ∧ ¬ (Sink.mk .error (.file ["r", "error.log"]) (some ⟨"1d", "10M", 5⟩)
        (some .error) ∈ route (initLogger exEnv 0 exConfig) .warn)
    ∧ (Sink.mk .info (.file ["r", "app.log"]) (some ⟨"1d", "10M", 5⟩)
        none ∈ route (initLogger exEnv 0 exConfig) .warn) := by
  have hmemE : Sink.mk .error (.file ["r", "error.log"])
      (some ⟨"1d", "10M", 5⟩) (some .error)
      ∈ (initLogger exEnv 0 exConfig).sinks := by decide
  have hmemP : Sink.mk .info (.file ["r", "app.log"])
      (some ⟨"1d", "10M", 5⟩) none
      ∈ (initLogger exEnv 0 exConfig).sinks := by decide
  refine ⟨?_, ?_, ?_⟩
  · exact ((c2_exact_and_threshold_routing exEnv exConfig .error .error _
      hmemE).1 rfl).mpr rfl
  · intro hmem
    exact absurd (((c2_exact_and_threshold_routing exEnv exConfig .warn
      .error _ hmemE).1 rfl).mp hmem) (by decide)
  · exact ((c2_exact_and_threshold_routing exEnv exConfig .warn .error _
      hmemP).2 rfl).mpr (by decide)

/-- C3: after setLevel with a new level, the singleton slot holds the same
logger with only its current level mutated; the sink list and resolved
configuration are not rebuilt; the new level is the effective admission
threshold of every threshold-type sink for newly-routed events; and
exact-filter per-level sinks are unaffected, reached by exactly the same
events as before. -/
theorem c3_setLevel_effect (env : Env) (l : Logger) (n E L : LogLevel)
    (s : Sink) (st : RegistryState) :
    (setLevel env n st).2.inst = some ((getLogger env none st).1.withLevel n)
    ∧ (l.withLevel n).sinks = l.sinks
    ∧ (l.withLevel n).config = l.config
    ∧ (s.filter = none →
        ((s ∈ route (l.withLevel n) E) ↔
          s ∈ l.sinks ∧ levelValue n ≤ levelValue E))
    ∧ (s.filter = some L →
        ((s ∈ route (l.withLevel n) E) ↔ s ∈ route l E)) := by
  refine ⟨rfl, rfl, rfl, ?_, ?_⟩
  · intro hf
    rw [route, List.mem_filter]
    simp [sinkMatches, hf, Logger.withLevel]
  · intro hf
    rw [route, route, List.mem_filter, List.mem_filter]
    simp [sinkMatches, hf, Logger.withLevel]

/-- C3 witness: raising the level from info to error leaves the error
exact-filter sink's admission unchanged while the primary threshold sink
no longer admits a warn event. -/
theorem c3_setLevel_witness :
    ¬ (Sink.mk .info (.file ["r", "app.log"]) (some ⟨"1d", "10M", 5⟩) none
        ∈ route ((initLogger exEnv 0 exConfig).withLevel .error) .warn)
    ∧ ((Sink.mk .error (.file ["r", "error.log"]) (some ⟨"1d", "10M", 5⟩)
        (some .error)
        ∈ route ((initLogger exEnv 0 exConfig).withLevel .error) .error)
      ↔ (Sink.mk .error (.file ["r", "error.log"]) (some ⟨"1d", "10M", 5⟩)
        (some .error) ∈ route (initLogger exEnv 0 exConfig) .error)) := by
  refine ⟨?_, ?_⟩
  · intro hmem
    have h := ((c3_setLevel_effect exEnv (initLogger exEnv 0 exConfig)
      .error .warn .error _ initialRegistry).2.2.2.1 rfl).mp hmem
    exact absurd h.2 (by decide)
  · exact (c3_setLevel_effect exEnv (initLogger exEnv 0 exConfig)
      .error .error .error _ initialRegistry).2.2.2.2 rfl

/-- C4: for every configuration, the resolved sink list is built in the
fixed order pretty sink (when prettyPrint is enabled), then primary file
sink (when the merged destination is non-empty), then one sink per enabled
per-level file in the severity order fatal, error, warn, info, debug,
trace — independently of the key order of the user's levelFiles map, which
enters only through per-level lookups. -/
theorem c4_sink_order (env : Env) (id : Nat) (cfg : LoggerConfig) :
    (initLogger env id cfg).sinks =
      (if (mergeConfig env cfg).prettyPrint
        then [createPrettyStream (mergeConfig env cfg).level] else [])
      ++ (if (mergeConfig env cfg).destination.isEmpty then []
        else [Sink.mk (mergeConfig env cfg).level
          (.file (mergeConfig env cfg).destination)
          (some (mergeConfig env cfg).rotation) none])
      ++ (allLevels.filter (fun l => (mergedLevelFile cfg l).enabled)).map
        (fun l => Sink.mk l
          (.file ((mergedLevelFile cfg l).destination.getD
            (pathJoin (dirname (mergeConfig env cfg).destination)
              (levelName l ++ ".log"))))
          (some (mergeConfig env cfg).rotation) (some l)) :=
  initLogger_sinks env id cfg

/-- C5: a second getLogger call with no reset between returns the same
stored instance and leaves the registry unchanged, its configuration
argument ignored; after resetLogger, the next getLogger call builds and
returns a fresh instance, distinguishable by its allocation identity and
built from the configuration supplied at that later call. -/
theorem c5_singleton_idempotence (env : Env)
    (c1 c2 c3 : Option LoggerConfig) (s0 : RegistryState)
    (hinv : ∀ l, s0.inst = some l → l.id < s0.nextId) :
    getLogger env c2 (getLogger env c1 s0).2 = getLogger env c1 s0
    ∧ (getLogger env c3 (resetLogger (getLogger env c1 s0).2)).1.id
      ≠ (getLogger env c1 s0).1.id
    ∧ (getLogger env c3 (resetLogger (getLogger env c1 s0).2)).1
      = initLogger env (getLogger env c1 s0).2.nextId (c3.getD emptyConfig)
    := by
  obtain ⟨inst, n⟩ := s0
  cases inst with
  | none =>
    refine ⟨rfl, ?_, rfl⟩
    exact Nat.succ_ne_self n
  | some l =>
    have hl : l.id < n := hinv l rfl
    refine ⟨rfl, ?_, rfl⟩
    exact Nat.ne_of_gt hl

/-- C5 witness: from the process-start registry, the second getLogger call
returns the pair the first returned, and the call after a reset returns an
instance with a different allocation identity. -/
theorem c5_singleton_witness :
    getLogger exEnv none (getLogger exEnv none initialRegistry).2
      = getLogger exEnv none initialRegistry
    ∧ (getLogger exEnv none
        (resetLogger (getLogger exEnv none initialRegistry).2)).1.id
      ≠ (getLogger exEnv none initialRegistry).1.id := by
  have h := c5_singleton_idempotence exEnv none none none initialRegistry
    (by intro l hl; simp [initialRegistry] at hl)
  exact ⟨h.1, h.2.1⟩

/-- C6: for every configuration whose rotation input is exactly the size
sub-key with value 50M, the merged rotation policy is interval 1d, size
50M, maxFiles 5 — untouched sub-keys keep their defaults — and every
resolved sink other than the pretty console sink carries exactly that
policy. -/
theorem c6_rotation_merge (env : Env) (cfg : LoggerConfig)
    (hrot : cfg.rotation = some ⟨none, some "50M", none⟩) (s : Sink)
    (hs : s ∈ (initLogger env 0 cfg).sinks) :
    (mergeConfig env cfg).rotation = ⟨"1d", "50M", 5⟩
    ∧ (s.target = .pretty ∨ s.rotation = some ⟨"1d", "50M", 5⟩) := by
  have hm : (mergeConfig env cfg).rotation = ⟨"1d", "50M", 5⟩ := by
    simp [mergeConfig, mergeRotation, hrot]
  refine ⟨hm, ?_⟩
  rw [initLogger_sinks] at hs
  rcases List.mem_append.mp hs with h12 | h3
  · rcases List.mem_append.mp h12 with h1 | h2
    · left
      rcases List.mem_ite_nil_right.mp h1 with ⟨-, h⟩
      rw [List.mem_singleton.mp h]
      rfl
    · right
      rcases List.mem_ite_nil_left.mp h2 with ⟨-, h⟩
      rw [List.mem_singleton.mp h]
      rw [show (Sink.mk (mergeConfig env cfg).level
        (.file (mergeConfig env cfg).destination)
        (some (mergeConfig env cfg).rotation) none).rotation
        = some (mergeConfig env cfg).rotation from rfl, hm]
  · right
    rcases List.mem_map.mp h3 with ⟨l, -, h⟩
    rw [← h]
    rw [show (Sink.mk l _ (some (mergeConfig env cfg).rotation)
      (some l)).rotation = some (mergeConfig env cfg).rotation from rfl, hm]

/-- C6 witness: with rotation input size 50M only, the primary sink exists
carrying the rotation policy interval 1d, size 50M, maxFiles 5. -/
theorem c6_rotation_witness :
    (mergeConfig exEnv rotOnlyConfig).rotation = ⟨"1d", "50M", 5⟩
    ∧ ((Sink.mk .info (.file ["r", "app.log"]) (some ⟨"1d", "50M", 5⟩)
        none).target = .pretty
      ∨ (Sink.mk .info (.file ["r", "app.log"]) (some ⟨"1d", "50M", 5⟩)
        none).rotation = some ⟨"1d", "50M", 5⟩) :=
  c6_rotation_merge exEnv rotOnlyConfig rfl _ (by decide)

/-- C7: a configuration enabling a per-level file for a level with no
explicit per-level destination and no primary destination still yields
that level's sink, whose path is the level name dot log inside the logs
directory under the process working directory — the directory of the
default primary destination. -/
theorem c7_level_file_default_dir (env : Env) (L : LogLevel)
    (cfg : LoggerConfig) (hdest : cfg.destination = none)
    (hlf : lookupLevelFile cfg.levelFiles L = some ⟨true, none⟩) :
    Sink.mk L
      (.file (pathJoin (pathJoin env.cwd "logs") (levelName L ++ ".log")))
      (some (mergeConfig env cfg).rotation) (some L)
      ∈ (initLogger env 0 cfg).sinks := by
  rw [initLogger_sinks]
  refine List.mem_append.mpr (Or.inr ?_)
  refine List.mem_map.mpr ⟨L, ?_, ?_⟩
  · refine List.mem_filter.mpr ⟨?_, ?_⟩
    · cases L <;> simp [allLevels]
    · simp [mergedLevelFile, hlf]
  · have hdd : (mergeConfig env cfg).destination
        = pathJoin (pathJoin env.cwd "logs") "app.log" := by
      simp [mergeConfig, hdest, defaultConfig]
    simp [mergedLevelFile, hlf, hdd, dirname, pathJoin]

/-- C7 witness: the configuration enabling only a warn per-level file and
giving no destination yields the warn sink at the warn dot log path inside
the default logs directory. -/
theorem c7_level_file_witness :
    Sink.mk .warn
      (.file (pathJoin (pathJoin exEnv.cwd "logs") (levelName .warn ++ ".log")))
      (some (mergeConfig exEnv warnOnlyConfig).rotation) (some .warn)
      ∈ (initLogger exEnv 0 warnOnlyConfig).sinks :=
  c7_level_file_default_dir exEnv .warn warnOnlyConfig rfl (by decide)

/-- C8: both the generic log operation and the level-specific functions
emit, for a record-shaped message, the spread of the message record with
the context record in which context keys win on collision, and, for a
string message, the context record with the message string attached. -/
theorem c8_payload_merge (env : Env) (lv : LogLevel) (r : Record)
    (ctx : Option Record) (str k : String) (st : RegistryState) :
    (log env lv (.fields r) ctx st).1.2 = logPayload (.fields r) ctx
    ∧ (createLogFunction env lv (.fields r) ctx st).1.2
      = logPayload (.fields r) ctx
    ∧ lookupKey (logPayload (.fields r) ctx).fields k
      = pick (lookupKey (ctx.getD []) k) (lookupKey r k)
    ∧ (logPayload (.fields r) ctx).msg = none
    ∧ logPayload (.text str) ctx = ⟨ctx.getD [], some str⟩ := by
  refine ⟨rfl, rfl, ?_, rfl, rfl⟩
  exact lookupKey_spreadMerge r (ctx.getD []) k

/-- C9: there is a configuration — prettyPrint disabled, falsy primary
destination, the default-enabled per-level files disabled — whose resolved
sink list is empty; construction still succeeds without error and routing
any event is a no-op. -/
theorem c9_empty_sinks_legal (env : Env) (E : LogLevel) :
    (initLogger env 0 emptySinkConfig).sinks = []
    ∧ route (initLogger env 0 emptySinkConfig) E = []
    ∧ isOkE (initLoggerE env 0 emptySinkConfig) = true := by
  have h : (initLogger env 0 emptySinkConfig).sinks = [] := by
    rw [initLogger_sinks]
    simp [mergeConfig, emptySinkConfig, mergedLevelFile, lookupLevelFile,
      defaultLevelFile, allLevels, List.filter]
  refine ⟨h, ?_, rfl⟩
  rw [route, h]
  rfl

/-- C10: the ambient operations setLevel, child, log and the level-named
functions act on the singleton obtained with no configuration argument —
never on an instance made by createLogger, which leaves the singleton slot
untouched; when no singleton exists they construct it from the empty,
all-default configuration. -/
theorem c10_ambient_singleton (env : Env) (lv : LogLevel) (b : Record)
    (m : LogMessage) (c : Option Record) (cfg : LoggerConfig)
    (s : RegistryState) :
    ((createLogger env cfg s).2).inst = s.inst
    ∧ (setLevel env lv s).2.inst
      = some ((getLogger env none s).1.withLevel lv)
    ∧ (child env b s).1 = (getLogger env none s).1.mkChild b
    ∧ (log env lv m c s).1
      = (route (getLogger env none s).1 lv, logPayload m c)
    ∧ (createLogFunction env lv m c s).1
      = (route (getLogger env none s).1 lv, logPayload m c)
    ∧ (s.inst = none →
        (getLogger env none s).1 = initLogger env s.nextId emptyConfig)
    ∧ (∀ l, s.inst = some l → (getLogger env none s).1 = l) := by
  obtain ⟨inst, n⟩ := s
  refine ⟨rfl, rfl, rfl, rfl, rfl, ?_, ?_⟩
  · intro h
    subst h
    rfl
  · intro l hl
    subst hl
    rfl

/-- C10 witness: on the process-start registry the ambient getter builds
the singleton from the empty configuration, and a createLogger call leaves
the singleton slot empty. -/
theorem c10_ambient_witness :
    (getLogger exEnv none initialRegistry).1 = initLogger exEnv 0 emptyConfig
    ∧ ((createLogger exEnv exConfig initialRegistry).2).inst = none := by
  have h := c10_ambient_singleton exEnv .info [] (.text "m") none exConfig
    initialRegistry
  exact ⟨h.2.2.2.2.2.1 rfl, h.1⟩

end PinoToolkit
